import Mathlib

/-!
Shallow embedding of the solar-ROI computational core of the repository
(`src/lib/utils.ts`, `src/lib/panelOptions.ts`, `src/pages/results.tsx`,
`src/pages/api/gemini-analyze.ts`, and the ROI-calculator page).

JavaScript numbers are modelled by `JsVal`: exact rationals together with the
special values `Infinity`, `-Infinity`, `NaN` and `undefined`.  Arithmetic on
finite values is exact rational arithmetic (the spec states the formulas over
real numbers, "within floating-point tolerance"); the special values follow
the ECMAScript rules for the operations the embedded code actually uses.
The model collapses the signed zero `-0` to `0`; none of the embedded code
paths divide by a computed zero, so this does not affect any embedded branch.
-/

inductive JsVal where
  | num (q : ℚ)
  | posInf
  | negInf
  | nan
  | undef
deriving DecidableEq

namespace JsVal

/-- ECMAScript `ToNumber` restricted to the values of `JsVal`:
`undefined` converts to `NaN`, numbers are unchanged. -/
def toNumber : JsVal → JsVal
  | undef => nan
  | v => v

/-- JavaScript multiplication `a * b` (operands coerced with `ToNumber`). -/
def jsMul (a b : JsVal) : JsVal :=
  match a.toNumber, b.toNumber with
  | num x, num y => num (x * y)
  | num x, posInf => if 0 < x then posInf else if x < 0 then negInf else nan
  | num x, negInf => if 0 < x then negInf else if x < 0 then posInf else nan
  | posInf, num y => if 0 < y then posInf else if y < 0 then negInf else nan
  | negInf, num y => if 0 < y then negInf else if y < 0 then posInf else nan
  | posInf, posInf => posInf
  | posInf, negInf => negInf
  | negInf, posInf => negInf
  | negInf, negInf => posInf
  | _, _ => nan

/-- JavaScript addition `a + b` on numeric operands. -/
def jsAdd (a b : JsVal) : JsVal :=
  match a.toNumber, b.toNumber with
  | num x, num y => num (x + y)
  | num _, posInf => posInf
  | posInf, num _ => posInf
  | num _, negInf => negInf
  | negInf, num _ => negInf
  | posInf, posInf => posInf
  | negInf, negInf => negInf
  | _, _ => nan

/-- JavaScript division `a / b`.  Division of a nonzero finite number by zero
yields a signed infinity (the model has no `-0`, so the sign comes from the
numerator alone); `0 / 0` is `NaN`. -/
def jsDiv (a b : JsVal) : JsVal :=
  match a.toNumber, b.toNumber with
  | num x, num y =>
      if y = 0 then (if 0 < x then posInf else if x < 0 then negInf else nan)
      else num (x / y)
  | num _, posInf => num 0
  | num _, negInf => num 0
  | posInf, num y => if 0 ≤ y then posInf else negInf
  | negInf, num y => if 0 ≤ y then negInf else posInf
  | _, _ => nan

/-- JavaScript strict comparison `a < b`: `false` whenever a `NaN` is
involved (after `ToNumber` coercion). -/
def jsLt (a b : JsVal) : Bool :=
  match a.toNumber, b.toNumber with
  | num x, num y => decide (x < y)
  | num _, posInf => true
  | negInf, num _ => true
  | negInf, posInf => true
  | _, _ => false

/-- JavaScript comparison `a > b`. -/
def jsGt (a b : JsVal) : Bool := jsLt b a

/-- JavaScript comparison `a <= b`: `false` whenever a `NaN` is involved. -/
def jsLe (a b : JsVal) : Bool :=
  match a.toNumber, b.toNumber with
  | num x, num y => decide (x ≤ y)
  | num _, posInf => true
  | posInf, posInf => true
  | negInf, num _ => true
  | negInf, posInf => true
  | negInf, negInf => true
  | _, _ => false

/-- JavaScript `Math.min(a, b)`: `NaN` if either operand coerces to `NaN`. -/
def jsMin (a b : JsVal) : JsVal :=
  match a.toNumber, b.toNumber with
  | num x, num y => num (min x y)
  | num x, posInf => num x
  | num _, negInf => negInf
  | posInf, num y => num y
  | negInf, num _ => negInf
  | posInf, posInf => posInf
  | posInf, negInf => negInf
  | negInf, posInf => negInf
  | negInf, negInf => negInf
  | _, _ => nan

/-- JavaScript strict equality `a === b` (no coercion; `NaN === NaN` is
`false`, `undefined === undefined` is `true`). -/
def jsStrictEq (a b : JsVal) : Bool :=
  match a, b with
  | num x, num y => decide (x = y)
  | posInf, posInf => true
  | negInf, negInf => true
  | undef, undef => true
  | _, _ => false

/-- JavaScript `Math.round`: halves round toward positive infinity,
so `Math.round q = ⌊q + 1/2⌋` on finite values.  (`Rat.floor` is used
rather than the `FloorRing` notation so that proofs can evaluate it;
`Rat.floor q = ⌊q⌋` is recorded in `ratFloor_eq_intFloor` below.) -/
def jsRound (a : JsVal) : JsVal :=
  match a.toNumber with
  | num q => num (((q + 1 / 2).floor : ℤ) : ℚ)
  | posInf => posInf
  | negInf => negInf
  | _ => nan

/-- JavaScript `Math.floor`. -/
def jsFloor (a : JsVal) : JsVal :=
  match a.toNumber with
  | num q => num ((q.floor : ℤ) : ℚ)
  | posInf => posInf
  | negInf => negInf
  | _ => nan

/-- JavaScript truthiness of a number-or-undefined value:
`0`, `NaN` and `undefined` are falsy, every other value is truthy. -/
def jsTruthy : JsVal → Bool
  | num q => decide (q ≠ 0)
  | posInf => true
  | negInf => true
  | nan => false
  | undef => false

/-- `true` exactly on finite numbers. -/
def isNum : JsVal → Bool
  | num _ => true
  | _ => false

end JsVal

/-- `Rat.floor` agrees with the `FloorRing` floor on `ℚ`. -/
theorem ratFloor_eq_intFloor (q : ℚ) : q.floor = ⌊q⌋ := by
  rw [Rat.floor_def', ← Rat.floor_def]

open JsVal

/-- `v || 0` as used on the ROI-calculator page for each parsed required
field: falsy values (`0`, `NaN`, absent) are replaced by `0`. -/
def orZero (v : JsVal) : JsVal := if jsTruthy v then v else JsVal.num 0

/-- `Math.round(v * 100) / 100`: rounding to 2 decimal places exactly as in
`calculateSolarROI` (`src/lib/utils.ts`, lines 121 to 126). -/
def round2 (v : JsVal) : JsVal :=
  jsDiv (jsRound (jsMul v (JsVal.num 100))) (JsVal.num 100)

/-- Inputs of `calculateSolarROI` (`SolarROIInputs`, `src/lib/utils.ts`).
`monthlyConsumption` is optional in TypeScript; an absent field reads as
`undefined`, which is `JsVal.undef` here.  The ROI-calculator page passes a
record with no `shadingFactor` property at all, which likewise reads as
`undefined` at the call site, so `shadingFactor` is also a `JsVal`. -/
structure SolarROIInputs where
  roofArea : JsVal
  panelEfficiency : JsVal
  solarIrradiance : JsVal
  shadingFactor : JsVal
  electricityRate : JsVal
  systemCost : JsVal
  monthlyConsumption : JsVal
deriving DecidableEq

/-- Results of `calculateSolarROI` (`SolarROIResults`, `src/lib/utils.ts`). -/
structure SolarROIResults where
  dailyGeneration : JsVal
  monthlyGeneration : JsVal
  monthlySavings : JsVal
  annualSavings : JsVal
  paybackPeriod : JsVal
  roiPercentage : JsVal
deriving DecidableEq

/-- Step 1 of `calculateSolarROI` (line 85):
`roofArea * panelEfficiency * solarIrradiance * shadingFactor`. -/
def dailyGenerationOf (i : SolarROIInputs) : JsVal :=
  jsMul (jsMul (jsMul i.roofArea i.panelEfficiency) i.solarIrradiance) i.shadingFactor

/-- `averageDaysPerMonth = 30.44` (line 89). -/
def averageDaysPerMonth : JsVal := JsVal.num (30.44 : ℚ)

/-- Step 2 (line 90): `dailyGeneration * averageDaysPerMonth`. -/
def monthlyGenerationOf (i : SolarROIInputs) : JsVal :=
  jsMul (dailyGenerationOf i) averageDaysPerMonth

/-- Step 3 (lines 96 to 98): `monthlyConsumption !== undefined
? Math.min(monthlyGeneration, monthlyConsumption) : monthlyGeneration`. -/
def usableMonthlyGenerationOf (i : SolarROIInputs) : JsVal :=
  if i.monthlyConsumption ≠ JsVal.undef then
    jsMin (monthlyGenerationOf i) i.monthlyConsumption
  else
    monthlyGenerationOf i

/-- Step 3, savings (line 100): `usableMonthlyGeneration * electricityRate`. -/
def monthlySavingsOf (i : SolarROIInputs) : JsVal :=
  jsMul (usableMonthlyGenerationOf i) i.electricityRate

/-- Step 4 (line 104): `monthlySavings * 12`. -/
def annualSavingsOf (i : SolarROIInputs) : JsVal :=
  jsMul (monthlySavingsOf i) (JsVal.num 12)

/-- Step 5 (lines 109 to 111):
`annualSavings > 0 ? systemCost / annualSavings : Infinity`. -/
def paybackPeriodOf (i : SolarROIInputs) : JsVal :=
  if jsGt (annualSavingsOf i) (JsVal.num 0) then
    jsDiv i.systemCost (annualSavingsOf i)
  else
    JsVal.posInf

/-- Step 6 (lines 116 to 118):
`systemCost > 0 ? (annualSavings / systemCost) * 100 : 0`. -/
def roiPercentageOf (i : SolarROIInputs) : JsVal :=
  if jsGt i.systemCost (JsVal.num 0) then
    jsMul (jsDiv (annualSavingsOf i) i.systemCost) (JsVal.num 100)
  else
    JsVal.num 0

/-- `calculateSolarROI` (`src/lib/utils.ts`, lines 71 to 128): the five-step
pipeline above with every result field rounded to 2 decimal places. -/
def calculateSolarROI (i : SolarROIInputs) : SolarROIResults where
  dailyGeneration := round2 (dailyGenerationOf i)
  monthlyGeneration := round2 (monthlyGenerationOf i)
  monthlySavings := round2 (monthlySavingsOf i)
  annualSavings := round2 (annualSavingsOf i)
  paybackPeriod := round2 (paybackPeriodOf i)
  roiPercentage := round2 (roiPercentageOf i)

/-! Reference pipeline written from the words of the specification
(section 4.1 of the spec), to be compared with the definitions above. -/

/-- Spec: `dailyGeneration = roofArea × panelEfficiency × solarIrradiance
× shadingFactor`. -/
def specDailyGeneration (i : SolarROIInputs) : JsVal :=
  jsMul (jsMul (jsMul i.roofArea i.panelEfficiency) i.solarIrradiance) i.shadingFactor

/-- Spec: `monthlyGeneration = dailyGeneration × 30.44`. -/
def specMonthlyGeneration (i : SolarROIInputs) : JsVal :=
  jsMul (specDailyGeneration i) (JsVal.num (30.44 : ℚ))

/-- Spec: `usableMonthlyGeneration = monthlyConsumption provided
? min(monthlyGeneration, monthlyConsumption) : monthlyGeneration`. -/
def specUsableMonthlyGeneration (i : SolarROIInputs) : JsVal :=
  if i.monthlyConsumption ≠ JsVal.undef then
    jsMin (specMonthlyGeneration i) i.monthlyConsumption
  else
    specMonthlyGeneration i

/-- Spec: `monthlySavings = usableMonthlyGeneration × electricityRate`. -/
def specMonthlySavings (i : SolarROIInputs) : JsVal :=
  jsMul (specUsableMonthlyGeneration i) i.electricityRate

/-- Spec: `annualSavings = monthlySavings × 12`. -/
def specAnnualSavings (i : SolarROIInputs) : JsVal :=
  jsMul (specMonthlySavings i) (JsVal.num 12)

/-- C1: for every input record, the pre-rounding values computed by
`calculateSolarROI` equal the reference pipeline: `dailyGeneration =
roofArea × panelEfficiency × solarIrradiance × shadingFactor`,
`monthlyGeneration = dailyGeneration × 30.44`, `usableMonthlyGeneration =
min(monthlyGeneration, monthlyConsumption)` when `monthlyConsumption` is
provided and `monthlyGeneration` otherwise, `monthlySavings =
usableMonthlyGeneration × electricityRate`, `annualSavings =
monthlySavings × 12`. -/
theorem roi_prerounding_matches_spec (i : SolarROIInputs) :
    dailyGenerationOf i = specDailyGeneration i ∧
    monthlyGenerationOf i = specMonthlyGeneration i ∧
    usableMonthlyGenerationOf i = specUsableMonthlyGeneration i ∧
    monthlySavingsOf i = specMonthlySavings i ∧
    annualSavingsOf i = specAnnualSavings i :=
  ⟨rfl, rfl, rfl, rfl, rfl⟩

/-- The concrete scenario input of the spec:
`{roofArea:50, panelEfficiency:0.20, solarIrradiance:5.0, shadingFactor:1,
electricityRate:0.40, systemCost:30000}`, no consumption cap. -/
def scenarioInput : SolarROIInputs :=
  ⟨JsVal.num 50, JsVal.num (0.20 : ℚ), JsVal.num (5.0 : ℚ), JsVal.num 1,
   JsVal.num (0.40 : ℚ), JsVal.num 30000, JsVal.undef⟩

/-- The same scenario with `monthlyConsumption = 400`. -/
def scenarioInputCapped : SolarROIInputs :=
  { scenarioInput with monthlyConsumption := JsVal.num 400 }

/-- C4: the concrete scenarios.  The uncapped input returns
`dailyGeneration=50`, `monthlyGeneration=1522.00`, `monthlySavings=608.80`,
`annualSavings=7305.60`, `paybackPeriod=4.11`, `roiPercentage=24.35`;
adding `monthlyConsumption=400` yields `monthlySavings=160.00`,
`annualSavings=1920.00`, `paybackPeriod=15.63`, `roiPercentage=6.40`. -/
theorem roi_concrete_scenarios :
    calculateSolarROI scenarioInput =
      ⟨JsVal.num 50, JsVal.num 1522, JsVal.num (608.80 : ℚ), JsVal.num (7305.60 : ℚ),
       JsVal.num (4.11 : ℚ), JsVal.num (24.35 : ℚ)⟩ ∧
    (calculateSolarROI scenarioInputCapped).monthlySavings = JsVal.num (160.00 : ℚ) ∧
    (calculateSolarROI scenarioInputCapped).annualSavings = JsVal.num (1920.00 : ℚ) ∧
    (calculateSolarROI scenarioInputCapped).paybackPeriod = JsVal.num (15.63 : ℚ) ∧
    (calculateSolarROI scenarioInputCapped).roiPercentage = JsVal.num (6.40 : ℚ) := by
  refine ⟨?_, ?_, ?_, ?_, ?_⟩ <;>
    simp only [calculateSolarROI, round2, paybackPeriodOf, roiPercentageOf, annualSavingsOf,
      monthlySavingsOf, usableMonthlyGenerationOf, monthlyGenerationOf, dailyGenerationOf,
      averageDaysPerMonth, scenarioInput, scenarioInputCapped, jsMul, jsDiv, jsMin, jsGt, jsLt,
      jsRound, JsVal.toNumber, ne_eq, reduceCtorEq] <;>
    norm_num [ratFloor_eq_intFloor, min_def]

/-- Builds a `SolarROIInputs` record from rational values for the six
required fields; `mc` is the optional consumption cap. -/
def mkInputs (a e s f r c : ℚ) (mc : JsVal) : SolarROIInputs :=
  ⟨JsVal.num a, JsVal.num e, JsVal.num s, JsVal.num f, JsVal.num r, JsVal.num c, mc⟩

/-- C5 counterexample.  First conjunct: increasing `roofArea` from `50` to
`50.001` (all other inputs fixed, in the documented domain) leaves the
returned `dailyGeneration` unchanged, because both pre-rounding values
round to `50.00` - so the returned field is not strictly increasing.
Second conjunct: `shadingFactor = 0` lies in the documented domain `[0,1]`,
and there increasing `systemCost` from `30000` to `40000` leaves both the
returned `paybackPeriod` (`Infinity` in both cases) and the returned
`roiPercentage` (`0` in both cases) unchanged, and increasing `roofArea`
leaves even the pre-rounding `dailyGeneration` unchanged at `0`. -/
theorem roi_monotonicity_counterexample :
    ((50 : ℚ) < (50.001 : ℚ) ∧
     (calculateSolarROI (mkInputs 50 (0.2 : ℚ) 5 1 (0.4 : ℚ) 30000 JsVal.undef)).dailyGeneration =
       (calculateSolarROI
         (mkInputs (50.001 : ℚ) (0.2 : ℚ) 5 1 (0.4 : ℚ) 30000 JsVal.undef)).dailyGeneration) ∧
    ((30000 : ℚ) < (40000 : ℚ) ∧ (0 : ℚ) ≤ (0 : ℚ) ∧ (0 : ℚ) ≤ (1 : ℚ) ∧
     (calculateSolarROI (mkInputs 50 (0.2 : ℚ) 5 0 (0.4 : ℚ) 30000 JsVal.undef)).paybackPeriod =
       (calculateSolarROI (mkInputs 50 (0.2 : ℚ) 5 0 (0.4 : ℚ) 40000 JsVal.undef)).paybackPeriod ∧
     (calculateSolarROI (mkInputs 50 (0.2 : ℚ) 5 0 (0.4 : ℚ) 30000 JsVal.undef)).roiPercentage =
       (calculateSolarROI (mkInputs 50 (0.2 : ℚ) 5 0 (0.4 : ℚ) 40000 JsVal.undef)).roiPercentage ∧
     dailyGenerationOf (mkInputs 50 (0.2 : ℚ) 5 0 (0.4 : ℚ) 30000 JsVal.undef) =
       dailyGenerationOf (mkInputs 60 (0.2 : ℚ) 5 0 (0.4 : ℚ) 30000 JsVal.undef)) := by
  refine ⟨⟨by norm_num, ?_⟩, by norm_num, by norm_num, by norm_num, ?_, ?_, ?_⟩ <;>
    simp only [calculateSolarROI, round2, paybackPeriodOf, roiPercentageOf, annualSavingsOf,
      monthlySavingsOf, usableMonthlyGenerationOf, monthlyGenerationOf, dailyGenerationOf,
      averageDaysPerMonth, mkInputs, jsMul, jsDiv, jsMin, jsGt, jsLt, jsRound, JsVal.toNumber,
      ne_eq, reduceCtorEq] <;>
    norm_num [ratFloor_eq_intFloor]

/-- C5 amended: over the documented domain restricted to a strictly
positive shading factor, and stated of the pre-rounding values, strictly
increasing any one of `roofArea`, `panelEfficiency`, `solarIrradiance` or
`shadingFactor` strictly increases `dailyGeneration`, and strictly
increasing `systemCost` strictly increases `paybackPeriod` and strictly
decreases `roiPercentage`. -/
theorem roi_prerounding_monotonicity
    (a a' e e' s s' f f' r c c' : ℚ) (mc : JsVal)
    (ha : 0 < a) (he : 0 < e) (he1 : e ≤ 1) (he1' : e' ≤ 1)
    (hs : 0 < s) (hf : 0 < f) (hf1 : f ≤ 1) (hf1' : f' ≤ 1)
    (hr : 0 < r) (hc : 0 < c)
    (hmc : mc = JsVal.undef ∨ ∃ m : ℚ, mc = JsVal.num m ∧ 0 < m) :
    (a < a' → jsLt (dailyGenerationOf (mkInputs a e s f r c mc))
      (dailyGenerationOf (mkInputs a' e s f r c mc)) = true) ∧
    (e < e' → jsLt (dailyGenerationOf (mkInputs a e s f r c mc))
      (dailyGenerationOf (mkInputs a e' s f r c mc)) = true) ∧
    (s < s' → jsLt (dailyGenerationOf (mkInputs a e s f r c mc))
      (dailyGenerationOf (mkInputs a e s' f r c mc)) = true) ∧
    (f < f' → jsLt (dailyGenerationOf (mkInputs a e s f r c mc))
      (dailyGenerationOf (mkInputs a e s f' r c mc)) = true) ∧
    (c < c' → jsLt (paybackPeriodOf (mkInputs a e s f r c mc))
      (paybackPeriodOf (mkInputs a e s f r c' mc)) = true) ∧
    (c < c' → jsLt (roiPercentageOf (mkInputs a e s f r c' mc))
      (roiPercentageOf (mkInputs a e s f r c mc)) = true) := by
  have hdaily : ∀ x y z w : ℚ,
      dailyGenerationOf (mkInputs x y z w r c mc) = JsVal.num (x * y * z * w) := fun _ _ _ _ => rfl
  have hlt : ∀ x y : ℚ, jsLt (JsVal.num x) (JsVal.num y) = decide (x < y) := fun _ _ => rfl
  rcases hmc with rfl | ⟨m, rfl, hm⟩
  · have hann : ∀ x : ℚ,
        annualSavingsOf (mkInputs a e s f r x JsVal.undef) =
          JsVal.num (a * e * s * f * (30.44 : ℚ) * r * 12) := fun _ => rfl
    have hA : (0 : ℚ) < a * e * s * f * (30.44 : ℚ) * r * 12 := by positivity
    refine ⟨?_, ?_, ?_, ?_, ?_, ?_⟩
    · intro h
      rw [hdaily, hdaily, hlt, decide_eq_true_eq]
      gcongr
    · intro h
      rw [hdaily, hdaily, hlt, decide_eq_true_eq]
      gcongr
    · intro h
      rw [hdaily, hdaily, hlt, decide_eq_true_eq]
      gcongr
    · intro h
      rw [hdaily, hdaily, hlt, decide_eq_true_eq]
      have hbase : (0 : ℚ) < a * e * s := by positivity
      calc a * e * s * f < a * e * s * f' := by gcongr
        _ = a * e * s * f' := rfl
    · intro h
      have hgt : ∀ x : ℚ, jsGt (annualSavingsOf (mkInputs a e s f r x JsVal.undef))
          (JsVal.num 0) = true := by
        intro x
        rw [hann, jsGt, hlt, decide_eq_true_eq]
        exact hA
      rw [paybackPeriodOf, paybackPeriodOf, if_pos (hgt c), if_pos (hgt c'), hann, hann]
      have hAne : (a * e * s * f * (30.44 : ℚ) * r * 12) ≠ 0 := ne_of_gt hA
      simp only [mkInputs, jsDiv, JsVal.toNumber, if_neg hAne]
      rw [hlt, decide_eq_true_eq, div_lt_div_iff_of_pos_right hA]
      exact h
    · intro h
      have hc' : (0 : ℚ) < c' := hc.trans h
      have hsc : ∀ x : ℚ, (mkInputs a e s f r x JsVal.undef).systemCost = JsVal.num x :=
        fun _ => rfl
      have hgt : ∀ x : ℚ, 0 < x → jsGt (JsVal.num x) (JsVal.num 0) = true := by
        intro x hx
        rw [jsGt, hlt, decide_eq_true_eq]
        exact hx
      rw [roiPercentageOf, roiPercentageOf, hsc, hsc, if_pos (hgt c hc), if_pos (hgt c' hc'),
        hann, hann]
      simp only [jsDiv, jsMul, JsVal.toNumber, if_neg (ne_of_gt hc), if_neg (ne_of_gt hc')]
      rw [hlt, decide_eq_true_eq]
      exact mul_lt_mul_of_pos_right (div_lt_div_of_pos_left hA hc h) (by norm_num)
  · have hann : ∀ x : ℚ,
        annualSavingsOf (mkInputs a e s f r x (JsVal.num m)) =
          JsVal.num (min (a * e * s * f * (30.44 : ℚ)) m * r * 12) := fun _ => rfl
    have hA : (0 : ℚ) < min (a * e * s * f * (30.44 : ℚ)) m * r * 12 := by
      have : (0 : ℚ) < min (a * e * s * f * (30.44 : ℚ)) m := by
        apply lt_min _ hm
        positivity
      positivity
    refine ⟨?_, ?_, ?_, ?_, ?_, ?_⟩
    · intro h
      rw [hdaily, hdaily, hlt, decide_eq_true_eq]
      gcongr
    · intro h
      rw [hdaily, hdaily, hlt, decide_eq_true_eq]
      gcongr
    · intro h
      rw [hdaily, hdaily, hlt, decide_eq_true_eq]
      gcongr
    · intro h
      rw [hdaily, hdaily, hlt, decide_eq_true_eq]
      gcongr
    · intro h
      have hgt : ∀ x : ℚ, jsGt (annualSavingsOf (mkInputs a e s f r x (JsVal.num m)))
          (JsVal.num 0) = true := by
        intro x
        rw [hann, jsGt, hlt, decide_eq_true_eq]
        exact hA
      rw [paybackPeriodOf, paybackPeriodOf, if_pos (hgt c), if_pos (hgt c'), hann, hann]
      have hAne : min (a * e * s * f * (30.44 : ℚ)) m * r * 12 ≠ 0 := ne_of_gt hA
      simp only [mkInputs, jsDiv, JsVal.toNumber, if_neg hAne]
      rw [hlt, decide_eq_true_eq, div_lt_div_iff_of_pos_right hA]
      exact h
    · intro h
      have hc' : (0 : ℚ) < c' := hc.trans h
      have hsc : ∀ x : ℚ, (mkInputs a e s f r x (JsVal.num m)).systemCost = JsVal.num x :=
        fun _ => rfl
      have hgt : ∀ x : ℚ, 0 < x → jsGt (JsVal.num x) (JsVal.num 0) = true := by
        intro x hx
        rw [jsGt, hlt, decide_eq_true_eq]
        exact hx
      rw [roiPercentageOf, roiPercentageOf, hsc, hsc, if_pos (hgt c hc), if_pos (hgt c' hc'),
        hann, hann]
      simp only [jsDiv, jsMul, JsVal.toNumber, if_neg (ne_of_gt hc), if_neg (ne_of_gt hc')]
      rw [hlt, decide_eq_true_eq]
      exact mul_lt_mul_of_pos_right (div_lt_div_of_pos_left hA hc h) (by norm_num)

/-- Witness for the amended C5 at a concrete in-domain configuration. -/
theorem roi_prerounding_monotonicity_witness :
    jsLt (dailyGenerationOf (mkInputs 1 (1 / 2) 1 (1 / 2) 1 1 JsVal.undef))
      (dailyGenerationOf (mkInputs 2 (1 / 2) 1 (1 / 2) 1 1 JsVal.undef)) = true ∧
    jsLt (dailyGenerationOf (mkInputs 1 (1 / 2) 1 (1 / 2) 1 1 JsVal.undef))
      (dailyGenerationOf (mkInputs 1 1 1 (1 / 2) 1 1 JsVal.undef)) = true ∧
    jsLt (dailyGenerationOf (mkInputs 1 (1 / 2) 1 (1 / 2) 1 1 JsVal.undef))
      (dailyGenerationOf (mkInputs 1 (1 / 2) 2 (1 / 2) 1 1 JsVal.undef)) = true ∧
    jsLt (dailyGenerationOf (mkInputs 1 (1 / 2) 1 (1 / 2) 1 1 JsVal.undef))
      (dailyGenerationOf (mkInputs 1 (1 / 2) 1 1 1 1 JsVal.undef)) = true ∧
    jsLt (paybackPeriodOf (mkInputs 1 (1 / 2) 1 (1 / 2) 1 1 JsVal.undef))
      (paybackPeriodOf (mkInputs 1 (1 / 2) 1 (1 / 2) 1 2 JsVal.undef)) = true ∧
    jsLt (roiPercentageOf (mkInputs 1 (1 / 2) 1 (1 / 2) 1 2 JsVal.undef))
      (roiPercentageOf (mkInputs 1 (1 / 2) 1 (1 / 2) 1 1 JsVal.undef)) = true := by
  have T := roi_prerounding_monotonicity 1 2 (1 / 2) 1 1 2 (1 / 2) 1 1 1 2 JsVal.undef
    (by norm_num) (by norm_num) (by norm_num) (by norm_num) (by norm_num) (by norm_num)
    (by norm_num) (by norm_num) (by norm_num) (by norm_num) (Or.inl rfl)
  exact ⟨T.1 (by norm_num), T.2.1 (by norm_num), T.2.2.1 (by norm_num),
    T.2.2.2.1 (by norm_num), T.2.2.2.2.1 (by norm_num), T.2.2.2.2.2 (by norm_num)⟩

/-- Standard round-half-away-from-zero on a rational:
`sign(q) * floor(|q| + 1/2)`.  This is the rounding mode named by the
specification; it differs from JavaScript `Math.round` on negative halves. -/
def roundHalfAwayFromZero (q : ℚ) : ℤ :=
  if q < 0 then -((-q + 1 / 2).floor) else (q + 1 / 2).floor

/-- Rounding to 2 decimal places with round-half-away-from-zero applied to
the value scaled by 100, as the specification describes it. -/
def specRound2Away (q : ℚ) : ℚ :=
  ((roundHalfAwayFromZero (q * 100) : ℤ) : ℚ) / 100

/-- Formatting a value to a 2-decimal-place string and parsing it back
(`toFixed(2)` followed by `parseFloat`).  ECMAScript `toFixed` picks the
decimal `n / 100` nearest to the value, taking the larger `n` on ties -
the same rounding as `Math.round` on the scaled value - and `parseFloat`
reads the decimal string back exactly, so on this model the round-trip is
exactly `round2`; `Infinity` and `NaN` format and re-parse to themselves. -/
def toFixedParse2dp (v : JsVal) : JsVal := round2 v

/-- `round2` is idempotent: re-rounding an already rounded value changes
nothing. -/
theorem round2_idem (v : JsVal) : round2 (round2 v) = round2 v := by
  cases v with
  | num q =>
      simp only [round2, jsMul, jsDiv, jsRound, JsVal.toNumber, ratFloor_eq_intFloor]
      norm_num [div_mul_cancel₀, Int.floor_int_add]
  | posInf => rfl
  | negInf => rfl
  | nan => rfl
  | undef => rfl

/-- The C3 counterexample input: `roofArea = -1/40 = -0.025` with every
other factor `1`, so the pre-rounding `dailyGeneration` is `-0.025` and its
scaled value `-2.5` is a negative half. -/
def negHalfInput : SolarROIInputs :=
  ⟨JsVal.num (-(1 / 40) : ℚ), JsVal.num 1, JsVal.num 1, JsVal.num 1,
   JsVal.num 1, JsVal.num 1, JsVal.undef⟩

/-- C3 counterexample: `calculateSolarROI` does not round with
round-half-away-from-zero.  At `negHalfInput` the pre-rounding
`dailyGeneration` is `-0.025`; round-half-away-from-zero on the scaled
value gives `-0.03`, but the function returns `-0.02` (JavaScript
`Math.round` sends `-2.5` to `-2`). -/
theorem roi_rounding_not_half_away_counterexample :
    dailyGenerationOf negHalfInput = JsVal.num (-(1 / 40) : ℚ) ∧
    specRound2Away (-(1 / 40) : ℚ) = (-(3 / 100) : ℚ) ∧
    (calculateSolarROI negHalfInput).dailyGeneration = JsVal.num (-(1 / 50) : ℚ) ∧
    (calculateSolarROI negHalfInput).dailyGeneration ≠
      JsVal.num (specRound2Away (-(1 / 40) : ℚ)) := by
  have h2 : specRound2Away (-(1 / 40) : ℚ) = (-(3 / 100) : ℚ) := by
    simp only [specRound2Away, roundHalfAwayFromZero, ratFloor_eq_intFloor]
    norm_num
  have h3 : (calculateSolarROI negHalfInput).dailyGeneration = JsVal.num (-(1 / 50) : ℚ) := by
    simp only [calculateSolarROI, round2, dailyGenerationOf, negHalfInput, jsMul, jsDiv,
      jsRound, JsVal.toNumber, ratFloor_eq_intFloor]
    norm_num
  refine ⟨?_, h2, h3, ?_⟩
  · simp only [dailyGenerationOf, negHalfInput, jsMul, JsVal.toNumber]
    norm_num
  · rw [h3, h2]
    simp only [ne_eq, JsVal.num.injEq]
    norm_num

/-- C3 amended: each of the six result fields is independently rounded to
2 decimal places by `Math.round` on the value scaled by 100 - half-up,
i.e. ties toward positive infinity, which agrees with
round-half-away-from-zero on nonnegative values - and this rounding is
idempotent: formatting any returned field to a 2-decimal-place string and
parsing it back yields the same value. -/
theorem roi_rounding_half_up_idempotent (i : SolarROIInputs) :
    ((calculateSolarROI i).dailyGeneration = round2 (dailyGenerationOf i) ∧
     (calculateSolarROI i).monthlyGeneration = round2 (monthlyGenerationOf i) ∧
     (calculateSolarROI i).monthlySavings = round2 (monthlySavingsOf i) ∧
     (calculateSolarROI i).annualSavings = round2 (annualSavingsOf i) ∧
     (calculateSolarROI i).paybackPeriod = round2 (paybackPeriodOf i) ∧
     (calculateSolarROI i).roiPercentage = round2 (roiPercentageOf i)) ∧
    (toFixedParse2dp (calculateSolarROI i).dailyGeneration =
       (calculateSolarROI i).dailyGeneration ∧
     toFixedParse2dp (calculateSolarROI i).monthlyGeneration =
       (calculateSolarROI i).monthlyGeneration ∧
     toFixedParse2dp (calculateSolarROI i).monthlySavings =
       (calculateSolarROI i).monthlySavings ∧
     toFixedParse2dp (calculateSolarROI i).annualSavings =
       (calculateSolarROI i).annualSavings ∧
     toFixedParse2dp (calculateSolarROI i).paybackPeriod =
       (calculateSolarROI i).paybackPeriod ∧
     toFixedParse2dp (calculateSolarROI i).roiPercentage =
       (calculateSolarROI i).roiPercentage) ∧
    (∀ q : ℚ, 0 ≤ q →
      jsRound (JsVal.num q) = JsVal.num ((roundHalfAwayFromZero q : ℤ) : ℚ)) := by
  refine ⟨⟨rfl, rfl, rfl, rfl, rfl, rfl⟩,
    ⟨round2_idem _, round2_idem _, round2_idem _, round2_idem _, round2_idem _, round2_idem _⟩,
    ?_⟩
  intro q hq
  simp only [jsRound, JsVal.toNumber, roundHalfAwayFromZero, if_neg (not_lt.mpr hq)]

/-- Witness for the amended C3 at the concrete scenario input and at the
nonnegative half `3/2`. -/
theorem roi_rounding_half_up_idempotent_witness :
    toFixedParse2dp (calculateSolarROI scenarioInput).paybackPeriod =
      (calculateSolarROI scenarioInput).paybackPeriod ∧
    jsRound (JsVal.num (3 / 2 : ℚ)) =
      JsVal.num ((roundHalfAwayFromZero (3 / 2 : ℚ) : ℤ) : ℚ) :=
  ⟨(roi_rounding_half_up_idempotent scenarioInput).2.1.2.2.2.2.1,
   (roi_rounding_half_up_idempotent scenarioInput).2.2 (3 / 2 : ℚ) (by norm_num)⟩

/-- C2: `calculateSolarROI` is total (every input yields a result record);
the pre-rounding `paybackPeriod` is `systemCost / annualSavings` when
`annualSavings > 0` and the special value `Infinity` otherwise (the rounded
returned field is then also `Infinity`); the pre-rounding `roiPercentage`
is `(annualSavings / systemCost) * 100` when `systemCost > 0` and `0`
otherwise, and in particular the returned `roiPercentage` is exactly `0`
(neither infinite nor `NaN`) when `systemCost = 0`. -/
theorem roi_total_and_sentinels (i : SolarROIInputs) :
    (∃ r : SolarROIResults, calculateSolarROI i = r) ∧
    (paybackPeriodOf i =
      if jsGt (annualSavingsOf i) (JsVal.num 0) then jsDiv i.systemCost (annualSavingsOf i)
      else JsVal.posInf) ∧
    (roiPercentageOf i =
      if jsGt i.systemCost (JsVal.num 0) then
        jsMul (jsDiv (annualSavingsOf i) i.systemCost) (JsVal.num 100)
      else JsVal.num 0) ∧
    (jsGt (annualSavingsOf i) (JsVal.num 0) = false →
      (calculateSolarROI i).paybackPeriod = JsVal.posInf) ∧
    (i.systemCost = JsVal.num 0 → (calculateSolarROI i).roiPercentage = JsVal.num 0) := by
  refine ⟨⟨calculateSolarROI i, rfl⟩, rfl, rfl, ?_, ?_⟩
  · intro h
    simp only [calculateSolarROI, round2, paybackPeriodOf, h, Bool.false_eq_true, if_false,
      jsMul, jsDiv, jsRound, JsVal.toNumber]
    norm_num
  · intro h
    simp only [calculateSolarROI, round2, roiPercentageOf, h, jsGt, jsLt, JsVal.toNumber,
      jsMul, jsDiv, jsRound]
    norm_num [ratFloor_eq_intFloor]

/-- An all-zero input: annual savings are not positive and the system cost
is zero, exercising both sentinel branches of `calculateSolarROI`. -/
def zeroInput : SolarROIInputs :=
  ⟨JsVal.num 0, JsVal.num 0, JsVal.num 0, JsVal.num 0, JsVal.num 0, JsVal.num 0, JsVal.undef⟩

/-- Witness for C2 at `zeroInput`. -/
theorem roi_total_and_sentinels_witness :
    (calculateSolarROI zeroInput).paybackPeriod = JsVal.posInf ∧
    (calculateSolarROI zeroInput).roiPercentage = JsVal.num 0 :=
  ⟨(roi_total_and_sentinels zeroInput).2.2.2.1 (by
      simp only [annualSavingsOf, monthlySavingsOf, usableMonthlyGenerationOf,
        monthlyGenerationOf, dailyGenerationOf, averageDaysPerMonth, zeroInput, jsMul, jsGt,
        jsLt, JsVal.toNumber]
      norm_num),
   (roi_total_and_sentinels zeroInput).2.2.2.2 rfl⟩

/-! Environmental impact calculator (`calculateEnvironmentalImpact`,
`src/pages/results.tsx`, lines 16 to 36).  The function is pure arithmetic
with no conditionals, so it is embedded over exact rationals. -/

/-- Result record of `calculateEnvironmentalImpact`. -/
structure EnvironmentalImpact where
  co2PerYear : ℚ
  co225Years : ℚ
  treesPerYear : ℚ
  trees25Years : ℚ
  carsPerYear : ℚ
deriving DecidableEq

/-- `calculateEnvironmentalImpact` (`src/pages/results.tsx`, lines 16 to
36): Malaysia grid factor 0.694 kg CO2/kWh, 21.77 kg CO2 per tree-year,
4600 kg CO2 per car-year, 25-year horizon. -/
def calculateEnvironmentalImpact (yearlyKwh : ℚ) : EnvironmentalImpact :=
  let co2PerKwh : ℚ := (0.694 : ℚ)
  let totalCo2PerYear := yearlyKwh * co2PerKwh
  let totalCo225Years := totalCo2PerYear * 25
  let treesPerYear := totalCo2PerYear / (21.77 : ℚ)
  let trees25Years := totalCo225Years / (21.77 : ℚ)
  let carsPerYear := totalCo2PerYear / 4600
  ⟨totalCo2PerYear, totalCo225Years, treesPerYear, trees25Years, carsPerYear⟩

/-- C6: for every `yearlyKwh` the environmental impact calculator returns
`co2PerYear = yearlyKwh × 0.694`, `co225Years = co2PerYear × 25`,
`treesPerYear = co2PerYear / 21.77`, `trees25Years = (co2PerYear × 25) /
21.77`, `carsPerYear = co2PerYear / 4600`; and at `yearlyKwh = 7500`:
`co2PerYear = 5205`, `co225Years = 130125`, `trees25Years ≈ 5977`
(within one half) and `carsPerYear ≈ 1.13` (within half a hundredth). -/
theorem environmental_impact_formulas :
    (∀ y : ℚ,
      (calculateEnvironmentalImpact y).co2PerYear = y * (0.694 : ℚ) ∧
      (calculateEnvironmentalImpact y).co225Years =
        (calculateEnvironmentalImpact y).co2PerYear * 25 ∧
      (calculateEnvironmentalImpact y).treesPerYear =
        (calculateEnvironmentalImpact y).co2PerYear / (21.77 : ℚ) ∧
      (calculateEnvironmentalImpact y).trees25Years =
        ((calculateEnvironmentalImpact y).co2PerYear * 25) / (21.77 : ℚ) ∧
      (calculateEnvironmentalImpact y).carsPerYear =
        (calculateEnvironmentalImpact y).co2PerYear / 4600) ∧
    (calculateEnvironmentalImpact 7500).co2PerYear = 5205 ∧
    (calculateEnvironmentalImpact 7500).co225Years = 130125 ∧
    |(calculateEnvironmentalImpact 7500).trees25Years - 5977| < 1 / 2 ∧
    |(calculateEnvironmentalImpact 7500).carsPerYear - (1.13 : ℚ)| < 1 / 200 := by
  refine ⟨fun y => ⟨rfl, rfl, rfl, rfl, rfl⟩, by norm_num [calculateEnvironmentalImpact],
    by norm_num [calculateEnvironmentalImpact], ?_, ?_⟩ <;>
    simp only [calculateEnvironmentalImpact] <;>
    rw [abs_sub_lt_iff] <;> constructor <;> norm_num

/-! Panel catalog (`src/lib/panelOptions.ts`) and the derived installation
fee and panel output factor (`src/pages/results.tsx`, lines 113 to 119 and
142 to 144). -/

/-- `PanelOption` (`src/lib/panelOptions.ts`): `solarIrradiance` is an
optional field. -/
structure PanelOption where
  id : String
  brand : String
  model : String
  panelEfficiency : ℚ
  pricePerKw : ℚ
  fixedInstallFee : ℚ
  warrantyYears : ℚ
  maintenance : String
  solarIrradiance : Option ℚ
  panelWattage : ℚ
  imageUrl : String
deriving DecidableEq

/-- First catalog entry. -/
def heliosPro : PanelOption where
  id := "helios-pro"
  brand := "Helios"
  model := "Pro 420"
  panelEfficiency := (0.22 : ℚ)
  pricePerKw := 2100
  fixedInstallFee := 3500
  warrantyYears := 25
  maintenance := "Annual inspection plus panel washing twice a year."
  solarIrradiance := some (5.2 : ℚ)
  panelWattage := 420
  imageUrl := "https://images.unsplash.com/photo-1509391366360-2e959784a276?auto=format&fit=crop&w=400&q=80"

/-- Second catalog entry. -/
def luminaMax : PanelOption where
  id := "lumina-max"
  brand := "Lumina"
  model := "Max 400"
  panelEfficiency := (0.205 : ℚ)
  pricePerKw := 1950
  fixedInstallFee := 3000
  warrantyYears := 20
  maintenance := "Owner rinsing every quarter; professional servicing yearly."
  solarIrradiance := some (5.0 : ℚ)
  panelWattage := 400
  imageUrl := "https://images.unsplash.com/photo-1508514177221-188b1cf16e9d?auto=format&fit=crop&w=400&q=80"

/-- Third catalog entry. -/
def solisLite : PanelOption where
  id := "solis-lite"
  brand := "Solis"
  model := "Lite 385"
  panelEfficiency := (0.195 : ℚ)
  pricePerKw := 1750
  fixedInstallFee := 2500
  warrantyYears := 18
  maintenance := "Quarterly debris check; deep clean every 18 months."
  solarIrradiance := some (4.8 : ℚ)
  panelWattage := 385
  imageUrl := "https://images.unsplash.com/photo-1559302504-64aae6ca6b6d?auto=format&fit=crop&w=400&q=80"

/-- `PANEL_OPTIONS` (`src/lib/panelOptions.ts`, lines 15 to 55). -/
def PANEL_OPTIONS : List PanelOption := [heliosPro, luminaMax, solisLite]

/-- `baselinePanel = PANEL_OPTIONS[0]` (`src/pages/results.tsx`,
line 113); JavaScript indexing out of range yields `undefined`, hence the
`Option`. -/
def baselinePanel : Option PanelOption := PANEL_OPTIONS.head?

/-- `installationFee = selectedPanel.fixedInstallFee +
selectedPanel.pricePerKw * results.systemSize` (`src/pages/results.tsx`,
lines 142 to 144). -/
def installationFee (p : PanelOption) (systemSize : ℚ) : ℚ :=
  p.fixedInstallFee + p.pricePerKw * systemSize

/-- `panelOutputFactor` (`src/pages/results.tsx`, lines 114 to 119):
`(sel.panelEfficiency / base.panelEfficiency) * ((sel.solarIrradiance ??
base.solarIrradiance ?? 5) / (base.solarIrradiance ?? 5))` when both the
selected and the baseline panel exist, `1` otherwise. -/
def panelOutputFactor (sel base : Option PanelOption) : ℚ :=
  match sel, base with
  | some s, some b =>
      (s.panelEfficiency / b.panelEfficiency) *
        (s.solarIrradiance.getD (b.solarIrradiance.getD 5) / b.solarIrradiance.getD 5)
  | _, _ => 1

/-- The panel output factor as the specification words it: `(P.efficiency
/ baseline.efficiency) × (P.irradiance / baseline.irradiance)`, with `5`
substituted for any missing irradiance. -/
def specPanelOutputFactor (p base : PanelOption) : ℚ :=
  (p.panelEfficiency / base.panelEfficiency) *
    (p.solarIrradiance.getD 5 / base.solarIrradiance.getD 5)

/-- C7: for every panel in the catalog and every system size `S`, the
derived installation fee is `fixedInstallFee + pricePerKw × S`, and the
panel output factor relative to the catalog's first entry matches the
specification formula with `5` substituted for missing irradiance. -/
theorem panel_fee_and_output_factor :
    ∀ p ∈ PANEL_OPTIONS, ∀ S : ℚ,
      installationFee p S = p.fixedInstallFee + p.pricePerKw * S ∧
      panelOutputFactor (some p) baselinePanel = specPanelOutputFactor p heliosPro := by
  intro p hp S
  fin_cases hp <;> exact ⟨rfl, rfl⟩

/-- Witness for C7 at the second catalog entry and `S = 10`. -/
theorem panel_fee_and_output_factor_witness :
    installationFee luminaMax 10 = luminaMax.fixedInstallFee + luminaMax.pricePerKw * 10 ∧
    panelOutputFactor (some luminaMax) baselinePanel = specPanelOutputFactor luminaMax heliosPro :=
  panel_fee_and_output_factor luminaMax (by simp [PANEL_OPTIONS]) 10

/-! Fastest-payback recommendation (`src/pages/results.tsx`, lines 166 to
191).  The page state feeding the comparison (roof area in square meters,
shading factor, electricity rate, mock system size, optional monthly
consumption) is abstracted into an environment record. -/

/-- The page-state values that parameterize the per-panel comparison. -/
structure ResultsEnv where
  roofAreaSqM : JsVal
  shadingFactor : JsVal
  electricityRate : JsVal
  systemSize : JsVal
  monthlyConsumption : JsVal
deriving DecidableEq

/-- `typeof v === "number"`: every `JsVal` except `undefined` is a number
(`NaN` and the infinities included). -/
def jsTypeofNumber : JsVal → Bool
  | JsVal.undef => false
  | _ => true

/-- The ROI input built per catalog entry (`src/pages/results.tsx`, lines
167 to 176): the panel supplies efficiency and irradiance (`?? 5`), the
fee `panel.fixedInstallFee + panel.pricePerKw * results.systemSize` is the
system cost, and the remaining fields come from page state. -/
def panelComparisonInput (p : PanelOption) (env : ResultsEnv) : SolarROIInputs where
  roofArea := env.roofAreaSqM
  panelEfficiency := JsVal.num p.panelEfficiency
  solarIrradiance := JsVal.num (p.solarIrradiance.getD 5)
  shadingFactor := env.shadingFactor
  electricityRate := env.electricityRate
  systemCost := jsAdd (JsVal.num p.fixedInstallFee) (jsMul (JsVal.num p.pricePerKw) env.systemSize)
  monthlyConsumption := env.monthlyConsumption

/-- `panelFinancialComparisons` (lines 166 to 181): one ROI evaluation per
catalog entry, paired with the panel.  `calculateSolarROI` always returns
a record, so the `summary?.paybackPeriod ?? null` in the source never
takes the `null` branch. -/
def panelFinancialComparisons (env : ResultsEnv) : List (PanelOption × JsVal) :=
  PANEL_OPTIONS.map fun p => (p, (calculateSolarROI (panelComparisonInput p env)).paybackPeriod)

/-- `viablePaybackPanels` (lines 182 to 185): keeps the entries whose
payback period has type `number`. -/
def viablePaybackPanels (env : ResultsEnv) : List (PanelOption × JsVal) :=
  (panelFinancialComparisons env).filter fun c => jsTypeofNumber c.2

/-- Variadic `Math.min(...)`: folds the binary `Math.min` starting from
its empty-argument value `Infinity`. -/
def jsMinList (l : List JsVal) : JsVal := l.foldl jsMin JsVal.posInf

/-- `shortestPaybackValue` (lines 186 to 187): the minimum payback over
the viable entries, `null` when there are none. -/
def shortestPaybackValue (env : ResultsEnv) : Option JsVal :=
  if 0 < (viablePaybackPanels env).length then
    some (jsMinList ((viablePaybackPanels env).map Prod.snd))
  else none

/-- `fastestPanels` (lines 188 to 191): the brands of every viable entry
whose payback period is strictly equal (`===`) to the minimum. -/
def fastestPanels (env : ResultsEnv) : List String :=
  match shortestPaybackValue env with
  | some v =>
      ((viablePaybackPanels env).filter fun c => jsStrictEq c.2 v).map fun c => c.1.brand
  | none => []

/-- The recommendation as the specification words it: the brand of every
entry whose payback period equals the given minimum. -/
def specFastestBrands (entries : List (String × ℚ)) (m : ℚ) : List String :=
  (entries.filter fun bq => decide (bq.2 = m)).map Prod.fst

/-- C8: when the per-panel ROI evaluations return finite payback periods
`q1, q2, q3` for the three catalog entries, the recommendation equals the
brands of all entries achieving the minimum payback `min q1 (min q2 q3)` -
every tied brand is reported, not just the first. -/
theorem fastest_payback_all_ties (env : ResultsEnv) (q1 q2 q3 : ℚ)
    (h1 : (calculateSolarROI (panelComparisonInput heliosPro env)).paybackPeriod = JsVal.num q1)
    (h2 : (calculateSolarROI (panelComparisonInput luminaMax env)).paybackPeriod = JsVal.num q2)
    (h3 : (calculateSolarROI (panelComparisonInput solisLite env)).paybackPeriod = JsVal.num q3) :
    fastestPanels env =
      specFastestBrands
        [(heliosPro.brand, q1), (luminaMax.brand, q2), (solisLite.brand, q3)]
        (min q1 (min q2 q3)) := by
  have hviable : viablePaybackPanels env =
      [(heliosPro, JsVal.num q1), (luminaMax, JsVal.num q2), (solisLite, JsVal.num q3)] := by
    simp [viablePaybackPanels, panelFinancialComparisons, PANEL_OPTIONS, h1, h2, h3,
      jsTypeofNumber]
  have hshort : shortestPaybackValue env = some (JsVal.num (min (min q1 q2) q3)) := by
    simp [shortestPaybackValue, hviable, jsMinList, jsMin, JsVal.toNumber]
  have hfast : fastestPanels env =
      ((viablePaybackPanels env).filter fun c =>
        jsStrictEq c.2 (JsVal.num (min (min q1 q2) q3))).map (fun c => c.1.brand) := by
    unfold fastestPanels
    rw [hshort]
  rw [hfast, hviable, specFastestBrands, min_assoc]
  rcases Bool.eq_false_or_eq_true (decide (q1 = min q1 (min q2 q3))) with hb1 | hb1 <;>
    rcases Bool.eq_false_or_eq_true (decide (q2 = min q1 (min q2 q3))) with hb2 | hb2 <;>
      rcases Bool.eq_false_or_eq_true (decide (q3 = min q1 (min q2 q3))) with hb3 | hb3 <;>
        simp [List.filter, jsStrictEq, hb1, hb2, hb3] <;>
          first
          | rfl
          | (split <;> rfl)

/-- A concrete page state: 1 square meter of roof, no shading, rate 1,
mock system size 0, no consumption cap. -/
def witnessEnv : ResultsEnv :=
  ⟨JsVal.num 1, JsVal.num 1, JsVal.num 1, JsVal.num 0, JsVal.undef⟩

/-- Witness for C8 at `witnessEnv`: the rounded payback periods are
`8.38`, `8.01` and `7.31`, and the single fastest brand is reported. -/
theorem fastest_payback_all_ties_witness :
    fastestPanels witnessEnv =
      specFastestBrands
        [(heliosPro.brand, (419 / 50 : ℚ)), (luminaMax.brand, (801 / 100 : ℚ)),
         (solisLite.brand, (731 / 100 : ℚ))]
        (min (419 / 50 : ℚ) (min (801 / 100 : ℚ) (731 / 100 : ℚ))) := by
  have h1 : (calculateSolarROI (panelComparisonInput heliosPro witnessEnv)).paybackPeriod =
      JsVal.num (419 / 50 : ℚ) := by
    simp only [calculateSolarROI, round2, paybackPeriodOf, annualSavingsOf, monthlySavingsOf,
      usableMonthlyGenerationOf, monthlyGenerationOf, dailyGenerationOf, averageDaysPerMonth,
      panelComparisonInput, witnessEnv, heliosPro, jsAdd, jsMul, jsDiv, jsMin, jsGt, jsLt,
      jsRound, JsVal.toNumber, ne_eq, reduceCtorEq]
    norm_num [ratFloor_eq_intFloor]
  have h2 : (calculateSolarROI (panelComparisonInput luminaMax witnessEnv)).paybackPeriod =
      JsVal.num (801 / 100 : ℚ) := by
    simp only [calculateSolarROI, round2, paybackPeriodOf, annualSavingsOf, monthlySavingsOf,
      usableMonthlyGenerationOf, monthlyGenerationOf, dailyGenerationOf, averageDaysPerMonth,
      panelComparisonInput, witnessEnv, luminaMax, jsAdd, jsMul, jsDiv, jsMin, jsGt, jsLt,
      jsRound, JsVal.toNumber, ne_eq, reduceCtorEq]
    norm_num [ratFloor_eq_intFloor]
  have h3 : (calculateSolarROI (panelComparisonInput solisLite witnessEnv)).paybackPeriod =
      JsVal.num (731 / 100 : ℚ) := by
    simp only [calculateSolarROI, round2, paybackPeriodOf, annualSavingsOf, monthlySavingsOf,
      usableMonthlyGenerationOf, monthlyGenerationOf, dailyGenerationOf, averageDaysPerMonth,
      panelComparisonInput, witnessEnv, solisLite, jsAdd, jsMul, jsDiv, jsMin, jsGt, jsLt,
      jsRound, JsVal.toNumber, ne_eq, reduceCtorEq]
    norm_num [ratFloor_eq_intFloor]
  exact fastest_payback_all_ties witnessEnv (419 / 50) (801 / 100) (731 / 100) h1 h2 h3

/-! The AI-insight endpoint (`src/pages/api/gemini-analyze.ts`).  The
upstream generative-AI call is external: it is modelled by an outcome
parameter - the call may throw, return text that fails to parse as JSON,
or return a parsed response.  Numeric fallback values are kept as numbers;
the source formats `estimatedCapacity` with `toFixed(1)` (exact here,
since the capacity is `0.4 × panels`, which has one decimal digit) and
`estimatedAnnualProduction` with `toLocaleString`. -/

/-- A polygon vertex of the request body. -/
structure Coordinates where
  lat : ℚ
  lng : ℚ
deriving DecidableEq

/-- `RequestBody` of the endpoint (`area`, `coordinates`, `address`). -/
structure RequestBody where
  area : JsVal
  coordinates : List Coordinates
  address : String
deriving DecidableEq

/-- The `solarPotential` part of the response. -/
structure SolarPotential where
  estimatedPanels : JsVal
  estimatedCapacity : JsVal
  estimatedAnnualProduction : JsVal
deriving DecidableEq

/-- `ResponseData` of the endpoint; all four fields are optional. -/
structure ResponseData where
  insights : Option String := none
  recommendations : Option (List String) := none
  solarPotential : Option SolarPotential := none
  error : Option String := none
deriving DecidableEq

/-- Outcome of the upstream generative-AI interaction: the call (or
reading its response) throws with some message, or it yields text that
fails to parse as JSON, or it yields a successfully parsed response. -/
inductive UpstreamOutcome where
  | throws (message : String)
  | unparseable (text : String)
  | parsed (response : ResponseData)
deriving DecidableEq

/-- The fallback solar potential computed on parse failure
(`src/pages/api/gemini-analyze.ts`, lines 95 to 115): 80% usable area,
1.7 square meters per panel, 400 W panels, 4.5 peak sun hours. -/
def fallbackSolarPotential (area : JsVal) : SolarPotential :=
  let usableArea := jsMul area (JsVal.num (0.8 : ℚ))
  let panelArea : JsVal := JsVal.num (1.7 : ℚ)
  let estimatedPanels := jsFloor (jsDiv usableArea panelArea)
  let panelWattage : JsVal := JsVal.num 400
  let estimatedCapacity := jsDiv (jsMul estimatedPanels panelWattage) (JsVal.num 1000)
  let peakSunHours : JsVal := JsVal.num (4.5 : ℚ)
  let estimatedAnnualProduction :=
    jsRound (jsMul (jsMul estimatedCapacity peakSunHours) (JsVal.num 365))
  ⟨estimatedPanels, estimatedCapacity, estimatedAnnualProduction⟩

/-- The three fixed fallback recommendations (lines 106 to 110). -/
def fallbackRecommendations : List String :=
  ["Ensure roof structure can support panel weight",
   "Consider panel orientation for optimal sun exposure",
   "Regular cleaning and maintenance for efficiency"]

/-- Response message strings of the handler. -/
def methodNotAllowedMsg : String := "Method not allowed"

/-- Error message when no API key is configured. -/
def keyMissingMsg : String := "Gemini API key not configured"

/-- Error message for a failed body validation. -/
def invalidRequestMsg : String := "Invalid request data"

/-- The endpoint handler (`src/pages/api/gemini-analyze.ts`, lines 26 to
126) as status code and response body.  The body is typed, so the
`!coordinates` truthiness test of the source is subsumed by the length
check.  A thrown upstream call reaches the outer `catch` (lines 120 to
125) and returns status 500 with the error message; parse failure of the
returned text produces the 200 fallback response (lines 91 to 117). -/
def handler (method : String) (geminiApiKey : Option String) (body : RequestBody)
    (upstream : UpstreamOutcome) : Nat × ResponseData :=
  if method ≠ "POST" then (405, { error := some methodNotAllowedMsg })
  else
    match geminiApiKey with
    | none => (500, { error := some keyMissingMsg })
    | some _ =>
      if !jsTruthy body.area || body.coordinates.length < 3 then
        (400, { error := some invalidRequestMsg })
      else
        match upstream with
        | .throws message => (500, { error := some message })
        | .parsed response => (200, response)
        | .unparseable text =>
            (200, { insights := some (text.take 300 ++ "..."),
                    recommendations := some fallbackRecommendations,
                    solarPotential := some (fallbackSolarPotential body.area),
                    error := none })

/-- The fallback arithmetic as the claim words it:
`estimatedPanels = floor(area × 0.8 / 1.7)`,
`estimatedCapacity = estimatedPanels × 400 / 1000`,
`estimatedAnnualProduction = round(estimatedCapacity × 4.5 × 365)`. -/
def specFallbackPotential (area : JsVal) : SolarPotential where
  estimatedPanels := jsFloor (jsDiv (jsMul area (JsVal.num (0.8 : ℚ))) (JsVal.num (1.7 : ℚ)))
  estimatedCapacity :=
    jsDiv (jsMul (jsFloor (jsDiv (jsMul area (JsVal.num (0.8 : ℚ))) (JsVal.num (1.7 : ℚ))))
      (JsVal.num 400)) (JsVal.num 1000)
  estimatedAnnualProduction :=
    jsRound (jsMul (jsMul
      (jsDiv (jsMul (jsFloor (jsDiv (jsMul area (JsVal.num (0.8 : ℚ))) (JsVal.num (1.7 : ℚ))))
        (JsVal.num 400)) (JsVal.num 1000))
      (JsVal.num (4.5 : ℚ))) (JsVal.num 365))

/-- A sample API key value. -/
def apiKey0 : String := "test-key"

/-- A validated request body: nonzero area and a 3-vertex polygon. -/
def geminiBody : RequestBody :=
  ⟨JsVal.num 100, [⟨1, 2⟩, ⟨3, 4⟩, ⟨5, 6⟩], "12 Example Street"⟩

/-- A sample upstream throw message. -/
def upstreamThrowMsg : String := "upstream request failed"

/-- C9 counterexample: for a request that passes validation, an upstream
call that throws does not produce the fallback values: the endpoint
returns status 500 with only an error message, and in particular no
`solarPotential` record at all. -/
theorem gemini_upstream_throw_counterexample :
    jsTruthy geminiBody.area = true ∧
    3 ≤ geminiBody.coordinates.length ∧
    handler "POST" (some apiKey0) geminiBody (.throws upstreamThrowMsg) =
      (500, { error := some upstreamThrowMsg }) ∧
    (handler "POST" (some apiKey0) geminiBody (.throws upstreamThrowMsg)).2.solarPotential =
      none := by
  refine ⟨rfl, by norm_num [geminiBody], ?_, ?_⟩ <;>
    simp [handler, geminiBody, jsTruthy]

/-- C9 amended: on failure to parse the upstream response as JSON, the
endpoint returns status 200 whose `solarPotential` is exactly the claimed
fallback arithmetic (`estimatedPanels = floor(area × 0.8 / 1.7)`,
`estimatedCapacity = estimatedPanels × 400 / 1000` kW,
`estimatedAnnualProduction = round(estimatedCapacity × 4.5 × 365)` kWh),
for every request whose area and at-least-3-point coordinate list pass
validation; an upstream call that throws instead yields a 500 error
response without fallback values. -/
theorem gemini_parse_failure_fallback (key : String) (body : RequestBody) (text : String)
    (harea : jsTruthy body.area = true) (hcoords : 3 ≤ body.coordinates.length) :
    handler "POST" (some key) body (.unparseable text) =
      (200, { insights := some (text.take 300 ++ "..."),
              recommendations := some fallbackRecommendations,
              solarPotential := some (specFallbackPotential body.area),
              error := none }) ∧
    ∀ message : String,
      handler "POST" (some key) body (.throws message) = (500, { error := some message }) := by
  constructor
  · simp [handler, harea, Nat.not_lt.mpr hcoords]
    rfl
  · intro message
    simp [handler, harea, Nat.not_lt.mpr hcoords]

/-- Sample unparseable upstream text. -/
def upstreamText0 : String := "no json here"

/-- Witness for the amended C9 at `geminiBody` and `upstreamText0`. -/
theorem gemini_parse_failure_fallback_witness :
    handler "POST" (some apiKey0) geminiBody (.unparseable upstreamText0) =
      (200, { insights := some (upstreamText0.take 300 ++ "..."),
              recommendations := some fallbackRecommendations,
              solarPotential := some (specFallbackPotential geminiBody.area),
              error := none }) ∧
    handler "POST" (some apiKey0) geminiBody (.throws upstreamThrowMsg) =
      (500, { error := some upstreamThrowMsg }) :=
  ⟨(gemini_parse_failure_fallback apiKey0 geminiBody upstreamText0 rfl
      (by norm_num [geminiBody])).1,
   (gemini_parse_failure_fallback apiKey0 geminiBody upstreamText0 rfl
      (by norm_num [geminiBody])).2 upstreamThrowMsg⟩

/-! The ROI-calculator page (`src/unnamed/part_000`): `handleCalculate`
parses the six text fields (`parseFloat(x) || 0` for the five required
fields, `parseFloat` or `undefined` for the optional consumption),
validates them, and invokes `calculateSolarROI` with a record that has no
`shadingFactor` property - reading the missing property yields
`undefined`. -/

/-- The raw `parseFloat` outcomes for the six form fields (before the
`|| 0` fallback of the five required fields). -/
structure CalcRaw where
  roofArea : JsVal
  panelEfficiency : JsVal
  solarIrradiance : JsVal
  electricityRate : JsVal
  systemCost : JsVal
  monthlyConsumption : JsVal
deriving DecidableEq

/-- `parsedInputs` (`src/unnamed/part_000`, lines 32 to 41): `|| 0` on the
five required fields; the optional consumption stays as parsed. -/
def parsedCalculatorInputs (raw : CalcRaw) : CalcRaw where
  roofArea := orZero raw.roofArea
  panelEfficiency := orZero raw.panelEfficiency
  solarIrradiance := orZero raw.solarIrradiance
  electricityRate := orZero raw.electricityRate
  systemCost := orZero raw.systemCost
  monthlyConsumption := raw.monthlyConsumption

/-- `handleCalculate` (`src/unnamed/part_000`, lines 31 to 63): rejects
when any required field is `<= 0` or the efficiency is `> 1`, otherwise
calls `calculateSolarROI` - with `shadingFactor` read as `undefined`
because the record built on the page has no such property. -/
def handleCalculate (raw : CalcRaw) : Option SolarROIResults :=
  let p := parsedCalculatorInputs raw
  if jsLe p.roofArea (JsVal.num 0) || jsLe p.panelEfficiency (JsVal.num 0) ||
      jsLe p.solarIrradiance (JsVal.num 0) || jsLe p.electricityRate (JsVal.num 0) ||
      jsLe p.systemCost (JsVal.num 0) then
    none
  else if jsGt p.panelEfficiency (JsVal.num 1) then
    none
  else
    some (calculateSolarROI
      { roofArea := p.roofArea, panelEfficiency := p.panelEfficiency,
        solarIrradiance := p.solarIrradiance, shadingFactor := JsVal.undef,
        electricityRate := p.electricityRate, systemCost := p.systemCost,
        monthlyConsumption := p.monthlyConsumption })

/-- Multiplying by `undefined` always yields `NaN`. -/
theorem jsMul_undef_right (v : JsVal) : jsMul v JsVal.undef = JsVal.nan := by
  cases v <;> rfl

/-- Multiplying `NaN` by anything yields `NaN`. -/
theorem jsMul_nan_left (v : JsVal) : jsMul JsVal.nan v = JsVal.nan := by
  cases v <;> rfl

/-- `Math.min` with a `NaN` first argument yields `NaN`. -/
theorem jsMin_nan_left (v : JsVal) : jsMin JsVal.nan v = JsVal.nan := by
  cases v <;> rfl

/-- Dividing `NaN` by anything yields `NaN`. -/
theorem jsDiv_nan_left (v : JsVal) : jsDiv JsVal.nan v = JsVal.nan := by
  cases v <;> rfl

/-- `v || 0` is never `NaN` and never `undefined`. -/
theorem orZero_not_nan_not_undef (v : JsVal) :
    orZero v ≠ JsVal.nan ∧ orZero v ≠ JsVal.undef := by
  cases v <;> simp [orZero, jsTruthy] <;> split <;> simp

/-- C10: for every form submission accepted by the calculator page's
validation, the missing `shadingFactor` makes `calculateSolarROI` return
`NaN` for `dailyGeneration`, `monthlyGeneration`, `monthlySavings`,
`annualSavings` and `roiPercentage`, and `Infinity` for `paybackPeriod`
(since `NaN > 0` is false). -/
theorem calculator_missing_shading_nan (raw : CalcRaw) (r : SolarROIResults)
    (h : handleCalculate raw = some r) :
    r.dailyGeneration = JsVal.nan ∧
    r.monthlyGeneration = JsVal.nan ∧
    r.monthlySavings = JsVal.nan ∧
    r.annualSavings = JsVal.nan ∧
    r.roiPercentage = JsVal.nan ∧
    r.paybackPeriod = JsVal.posInf := by
  simp only [handleCalculate, parsedCalculatorInputs] at h
  by_cases h1 : (jsLe (orZero raw.roofArea) (JsVal.num 0) ||
      jsLe (orZero raw.panelEfficiency) (JsVal.num 0) ||
      jsLe (orZero raw.solarIrradiance) (JsVal.num 0) ||
      jsLe (orZero raw.electricityRate) (JsVal.num 0) ||
      jsLe (orZero raw.systemCost) (JsVal.num 0)) = true
  · rw [if_pos h1] at h
    exact absurd h (by simp)
  · rw [if_neg h1] at h
    by_cases h2 : jsGt (orZero raw.panelEfficiency) (JsVal.num 1) = true
    · rw [if_pos h2] at h
      exact absurd h (by simp)
    · rw [if_neg h2] at h
      obtain rfl := (Option.some.inj h).symm
      have hdaily : dailyGenerationOf
          { roofArea := orZero raw.roofArea, panelEfficiency := orZero raw.panelEfficiency,
            solarIrradiance := orZero raw.solarIrradiance, shadingFactor := JsVal.undef,
            electricityRate := orZero raw.electricityRate, systemCost := orZero raw.systemCost,
            monthlyConsumption := raw.monthlyConsumption } = JsVal.nan := by
        rw [dailyGenerationOf]
        exact jsMul_undef_right _
      have hann : annualSavingsOf
          { roofArea := orZero raw.roofArea, panelEfficiency := orZero raw.panelEfficiency,
            solarIrradiance := orZero raw.solarIrradiance, shadingFactor := JsVal.undef,
            electricityRate := orZero raw.electricityRate, systemCost := orZero raw.systemCost,
            monthlyConsumption := raw.monthlyConsumption } = JsVal.nan := by
        rw [annualSavingsOf, monthlySavingsOf, usableMonthlyGenerationOf, monthlyGenerationOf,
          hdaily]
        split
        · rw [jsMul_nan_left, jsMin_nan_left, jsMul_nan_left, jsMul_nan_left]
        · rw [jsMul_nan_left, jsMul_nan_left, jsMul_nan_left]
      have hcostcases : (∃ x : ℚ, orZero raw.systemCost = JsVal.num x ∧ 0 < x) ∨
          orZero raw.systemCost = JsVal.posInf := by
        have hno := orZero_not_nan_not_undef raw.systemCost
        have h1sc : jsLe (orZero raw.systemCost) (JsVal.num 0) = false := by
          rcases Bool.eq_false_or_eq_true (jsLe (orZero raw.systemCost) (JsVal.num 0))
            with hb | hb
          · exact absurd h1 (by simp [hb])
          · exact hb
        cases hsc : orZero raw.systemCost with
        | num x =>
            left
            refine ⟨x, rfl, ?_⟩
            rw [hsc] at h1sc
            simp only [jsLe, JsVal.toNumber, decide_eq_false_iff_not, not_le] at h1sc
            exact h1sc
        | posInf => right; rfl
        | negInf => rw [hsc] at h1sc; simp [jsLe, JsVal.toNumber] at h1sc
        | nan => exact absurd hsc hno.1
        | undef => exact absurd hsc hno.2
      refine ⟨?_, ?_, ?_, ?_, ?_, ?_⟩
      · rw [calculateSolarROI, round2, hdaily]
        rfl
      · rw [calculateSolarROI]
        simp only [round2, monthlyGenerationOf, hdaily, jsMul_nan_left]
        rfl
      · rw [calculateSolarROI]
        simp only [round2, monthlySavingsOf, usableMonthlyGenerationOf, monthlyGenerationOf,
          hdaily]
        split
        · rw [jsMul_nan_left, jsMin_nan_left, jsMul_nan_left]
          rfl
        · rw [jsMul_nan_left, jsMul_nan_left]
          rfl
      · rw [calculateSolarROI]
        simp only [round2, hann]
        rfl
      · rw [calculateSolarROI]
        simp only [round2, roiPercentageOf, hann]
        rcases hcostcases with ⟨x, hx, hxpos⟩ | hx <;> rw [hx]
        · rw [if_pos (by simp [jsGt, jsLt, JsVal.toNumber]; exact hxpos)]
          rw [jsDiv_nan_left, jsMul_nan_left]
          rfl
        · rw [if_pos (show jsGt JsVal.posInf (JsVal.num 0) = true from rfl)]
          rfl
      · rw [calculateSolarROI]
        simp only [round2, paybackPeriodOf, hann]
        rw [if_neg (by simp [jsGt, jsLt, JsVal.toNumber])]
        rfl

/-- A concrete accepted submission: `roofArea = 50`, `panelEfficiency =
1`, `solarIrradiance = 5`, `electricityRate = 1`, `systemCost = 30000`,
no consumption entered. -/
def calcRaw0 : CalcRaw :=
  ⟨JsVal.num 50, JsVal.num 1, JsVal.num 5, JsVal.num 1, JsVal.num 30000, JsVal.undef⟩

/-- Witness for C10 at `calcRaw0`. -/
theorem calculator_missing_shading_nan_witness :
    (handleCalculate calcRaw0).isSome = true ∧
    ((handleCalculate calcRaw0).getD
        ⟨JsVal.num 0, JsVal.num 0, JsVal.num 0, JsVal.num 0, JsVal.num 0,
         JsVal.num 0⟩).dailyGeneration = JsVal.nan ∧
    ((handleCalculate calcRaw0).getD
        ⟨JsVal.num 0, JsVal.num 0, JsVal.num 0, JsVal.num 0, JsVal.num 0,
         JsVal.num 0⟩).paybackPeriod = JsVal.posInf := by
  have h : handleCalculate calcRaw0 = some
      (calculateSolarROI
        { roofArea := JsVal.num 50, panelEfficiency := JsVal.num 1,
          solarIrradiance := JsVal.num 5, shadingFactor := JsVal.undef,
          electricityRate := JsVal.num 1, systemCost := JsVal.num 30000,
          monthlyConsumption := JsVal.undef }) := by
    simp [handleCalculate, parsedCalculatorInputs, calcRaw0, orZero, jsTruthy, jsLe, jsGt,
      jsLt, JsVal.toNumber]
  have T := calculator_missing_shading_nan calcRaw0 _ h
  rw [h]
  exact ⟨rfl, T.1, T.2.2.2.2.2⟩
